import Mathlib

/-!
Shallow embedding of `src/dispatching/update_listeners/webhooks/axum.rs`
(teloxide's axum-based webhook update listener) and proofs about it.

Modelling conventions:
* Byte strings (HTTP header values, configured secrets) are `List Nat`.
* HTTP status codes are `Nat` (200, 400, 401, 503).
* The JSON decoder `serde_json::from_str` is an external collaborator and is
  passed in as a function `parse : String → Except String U` where `U` is the
  (opaque) update type and the `String` error is the parse-error message.
* The mpsc unbounded channel is modelled by its queue contents
  (`List U`, FIFO: `send` appends at the right, the consumer stream reads
  from the left) plus a flag saying whether the receiver half is alive.
* The `ClosableSender`'s shared `Arc<RwLock<Option<Sender>>>` cell is, from
  the handler's point of view, a single shared cell; inside the handler we
  track only whether it still holds the sender (`cell : Bool`).  The full
  aliasing structure (clones sharing one cell through the `Arc`) is modelled
  separately by a heap of cells indexed by `Arc` identity.
* `tx.send(...).expect(...)` panics when the receiver is gone; the handler
  outcome therefore has an explicit `panicked` flag.
-/

/-- The state of the unbounded mpsc channel, as observable from the sender
side: the queued (not yet consumed) items in FIFO order, and whether the
receiver half is still alive (`send` fails exactly when it is not). -/
structure ChanState (U : Type) where
  queue : List U
  receiverAlive : Bool
  deriving Repr, DecidableEq

/-- The three stages of `telegram_request`, in source order: the secret-token
comparison, the `tx.get()` / `flag.is_stopped()` availability check, and the
`serde_json::from_str` parse. -/
inductive Step where
  | secretCheck
  | availCheck
  | parseStep
  deriving Repr, DecidableEq

/-- The outcome of one run of the handler `telegram_request`:
whether the `.expect` on `tx.send` panicked, the returned HTTP status code
(meaningful only when `panicked = false`), the post-state of the
`ClosableSender` cell (`true` = still holds the sender), the post-state of
the channel queue, the `log::error!` emissions (parse-error message paired
with the raw body), and the trace of stages the handler executed. -/
structure ReqOutcome (U : Type) where
  panicked : Bool
  status : Nat
  cell : Bool
  queue : List U
  logs : List (String × String)
  trace : List Step
  deriving Repr, DecidableEq

/-- Shallow embedding of the handler `telegram_request`
(axum.rs lines 172–211).

* `input` is the request body, `secret_header` the already-extracted
  `XTelegramBotApiSecretToken` value, `secret` the configured secret token
  (as bytes, i.e. after `str::as_bytes`).
* `cell` is the current content flag of the `ClosableSender` cell
  (`tx.get()` is `Some _` iff `cell = true`), `stopped` the value of
  `flag.is_stopped()`, and `chan` the channel state.

The source, step by step:
1. `if secret_header.0.as_deref() != secret.as_deref().map(str::as_bytes)
   { return StatusCode::UNAUTHORIZED }`;
2. `match tx.get() { None => return SERVICE_UNAVAILABLE,
   _ if flag.is_stopped() => { tx.close(); return SERVICE_UNAVAILABLE },
   Some(tx) => tx }`;
3. `match serde_json::from_str(&input) { Ok(update) =>
   tx.send(Ok(update)).expect(...), Err(error) => log::error!(...) };
   StatusCode::OK`. -/
def telegram_request {U : Type} (parse : String → Except String U)
    (input : String) (secret_header : Option (List Nat))
    (secret : Option (List Nat)) (cell : Bool) (stopped : Bool)
    (chan : ChanState U) : ReqOutcome U :=
  if secret_header ≠ secret then
    ⟨false, 401, cell, chan.queue, [], [.secretCheck]⟩
  else if cell = false then
    ⟨false, 503, cell, chan.queue, [], [.secretCheck, .availCheck]⟩
  else if stopped then
    ⟨false, 503, false, chan.queue, [], [.secretCheck, .availCheck]⟩
  else
    match parse input with
    | .ok update =>
        if chan.receiverAlive then
          ⟨false, 200, cell, chan.queue ++ [update], [],
            [.secretCheck, .availCheck, .parseStep]⟩
        else
          ⟨true, 200, cell, chan.queue, [],
            [.secretCheck, .availCheck, .parseStep]⟩
    | .error error =>
        ⟨false, 200, cell, chan.queue, [(error, input)],
          [.secretCheck, .availCheck, .parseStep]⟩

/-- One inbound request, as seen by `telegram_request`: the raw body and the
(already extracted) secret-token header value. -/
structure Request where
  input : String
  header : Option (List Nat)

/-- Sequential processing of a list of requests by `telegram_request`,
threading the `ClosableSender` cell and the channel state through
(the axum server delivers each request to the handler; here we consider the
serialization in which they are handled one after the other). -/
def runRequests {U : Type} (parse : String → Except String U)
    (secret : Option (List Nat)) (stopped : Bool) :
    Bool → ChanState U → List Request → Bool × ChanState U
  | cell, chan, [] => (cell, chan)
  | cell, chan, r :: rs =>
      let o := telegram_request parse r.input r.header secret cell stopped chan
      runRequests parse secret stopped o.cell ⟨o.queue, chan.receiverAlive⟩ rs

/-! ### `ClosableSender` (axum.rs lines 236–259)

`struct ClosableSender<T> { origin: Arc<RwLock<Option<UnboundedSender<T>>>> }`.
`Clone` clones the `Arc`, so every clone shares the same cell.  We model the
shared cells by a heap mapping `Arc` identities to cell contents, and a
`ClosableSender` value by the identity of the cell it points at. -/

/-- The heap of `Arc<RwLock<Option<T>>>` cells: each `Arc` identity maps to
the current content of its cell (`none` after `close`). -/
def Heap (T : Type) := Nat → Option T

/-- A `ClosableSender<T>` value: it carries (a reference to) one shared cell,
identified by its `Arc` identity. -/
structure ClosableSender (T : Type) where
  origin : Nat
  deriving Repr, DecidableEq

/-- `ClosableSender::new(sender)`: allocate a fresh cell (at an identity
`fresh` unused so far) holding `some sender`. -/
def ClosableSender.new {T : Type} (h : Heap T) (sender : T) (fresh : Nat) :
    ClosableSender T × Heap T :=
  (⟨fresh⟩, fun n => if n = fresh then some sender else h n)

/-- `Clone for ClosableSender`: `Self { origin: self.origin.clone() }` —
the clone shares the same cell. -/
def ClosableSender.clone {T : Type} (cs : ClosableSender T) : ClosableSender T :=
  ⟨cs.origin⟩

/-- `ClosableSender::get`: `self.origin.read().unwrap().clone()` — read the
shared cell (cloning the sender handle if one is still there). -/
def ClosableSender.get {T : Type} (h : Heap T) (cs : ClosableSender T) :
    Option T :=
  h cs.origin

/-- `ClosableSender::close`: `self.origin.write().unwrap().take()` — empty
the shared cell.  Total (always succeeds). -/
def ClosableSender.close {T : Type} (h : Heap T) (cs : ClosableSender T) :
    Heap T :=
  fun n => if n = cs.origin then none else h n

/-! ### The secret-token extractor (axum.rs lines 261–288) -/

/-- Modelled from the spec: the well-formedness check `check_secret` is
defined in `webhooks/mod.rs`, which is not part of the sources here; only
its use site (the `XTelegramBotApiSecretToken` extractor) is.  The spec
speaks of a "malformed secret header" as a rejectable class, with the secret
an opaque byte string; the concrete criterion modelled here is the Telegram
bot API constraint the check enforces: 1–256 bytes, each an ASCII letter,
digit, underscore or hyphen.  On success the checked bytes are returned, on
failure an error message. -/
def check_secret (bytes : List Nat) : Except String (List Nat) :=
  if 1 ≤ bytes.length ∧ bytes.length ≤ 256 then
    if bytes.all (fun c =>
        (65 ≤ c ∧ c ≤ 90) ∨ (97 ≤ c ∧ c ≤ 122) ∨ (48 ≤ c ∧ c ≤ 57) ∨
        c = 95 ∨ c = 45) then
      .ok bytes
    else
      .error "secret token contains a disallowed character"
  else
    .error "secret token length is out of range"

/-- Shallow embedding of `XTelegramBotApiSecretToken::from_request`
(axum.rs lines 263–288): remove the `x-telegram-bot-api-secret-token`
header; if present, run `check_secret` on its bytes, mapping a failure to
`StatusCode::BAD_REQUEST` (400); `transpose` the `Option<Result<..>>`.
The well-formedness check itself (`checkSecret`) is a parameter, since it
lives outside these sources; `check_secret` above is its spec-level model. -/
def XTelegramBotApiSecretToken.from_request
    (checkSecret : List Nat → Except String (List Nat))
    (header : Option (List Nat)) : Except Nat (Option (List Nat)) :=
  match header with
  | none => .ok none
  | some bytes =>
      match checkSecret bytes with
      | .ok b => .ok (some b)
      | .error _ => .error 400

/-- The full per-request pipeline: run the `XTelegramBotApiSecretToken`
extractor on the raw header; if it rejects, axum answers with the rejection
status and the handler body never runs (no state change, no logs); otherwise
run `telegram_request` on the extracted value. -/
def handle_request {U : Type} (parse : String → Except String U)
    (checkSecret : List Nat → Except String (List Nat))
    (input : String) (rawHeader : Option (List Nat))
    (secret : Option (List Nat)) (cell : Bool) (stopped : Bool)
    (chan : ChanState U) : ReqOutcome U :=
  match XTelegramBotApiSecretToken.from_request checkSecret rawHeader with
  | .error code => ⟨false, code, cell, chan.queue, [], []⟩
  | .ok secret_header =>
      telegram_request parse input secret_header secret cell stopped chan

/-! ### Lifecycle orchestration (axum.rs lines 39–65, 108–137, 153–234)

`axum_no_setup` builds the channel, the router and the listener and performs
no remote-API call; `axum_to_router` first awaits `setup_webhook` and, on its
failure, returns early with that error (`?`); `axum` additionally spawns the
server task.  We record the observable effects as an event trace. -/

/-- Observable lifecycle effects, in the order they are performed. -/
inductive Event where
  | setupWebhook      -- `setup_webhook(&bot, &mut options).await`
  | buildListener     -- `axum_no_setup(options)` ran: channel, router, listener
  | deleteWebhook     -- `bot.delete_webhook().send().await`
  | serverSpawn       -- `tokio::spawn(... Server::bind ... serve ...)`
  deriving Repr, DecidableEq

/-- The triplet returned by `axum_to_router` / `axum_no_setup`, abstracted:
we only need its existence and which pieces were built. -/
structure Artifacts where
  listenerBuilt : Bool
  routerBuilt : Bool
  stopFutureBuilt : Bool
  deriving Repr, DecidableEq

/-- Shallow embedding of `axum_to_router` (axum.rs lines 108–137), with the
outcome of the external `setup_webhook` call passed in (`E` is the remote
API's error type `R::Err`).  `setup_webhook(&bot, &mut options).await?`
returns the error unchanged before anything else is built; on success
`axum_no_setup` builds the listener/stop-flag/router triplet and the
stop-flag is composed with the `delete_webhook` continuation. -/
def axum_to_router {E : Type} (setupRes : Except E Unit) :
    Except E Artifacts × List Event :=
  match setupRes with
  | .error e => (.error e, [.setupWebhook])
  | .ok () =>
      (.ok ⟨true, true, true⟩, [.setupWebhook, .buildListener])

/-- Shallow embedding of `axum` (axum.rs lines 39–65): call `axum_to_router`
(`?` propagates its error unchanged), then spawn the server task. -/
def axum {E : Type} (setupRes : Except E Unit) :
    Except E Artifacts × List Event :=
  match axum_to_router setupRes with
  | (.error e, evs) => (.error e, evs)
  | (.ok a, evs) => (.ok a, evs ++ [.serverSpawn])

/-- Shallow embedding of the composed stop-future
`stop_flag.then(move |()| async move { ... })` (axum.rs lines 126–134):
once the underlying stop flag has resolved, send `delete_webhook` (its
outcome `deleteRes` is an external input, error rendered as a `String`),
log an error message on failure, and resolve to `()` either way.
Returns the resolved value, the event trace and the emitted log lines. -/
def stopFlagThenDeleteWebhook (deleteRes : Except String Unit) :
    Unit × List Event × List String :=
  match deleteRes with
  | .ok () => ((), [.deleteWebhook], [])
  | .error err =>
      ((), [.deleteWebhook], ["Couldnt delete webhook: " ++ err])

/-! ### The secret comparison's timing (axum.rs lines 179–181)

`secret_header.0.as_deref() != secret.as_deref().map(str::as_bytes)` —
byte-slice equality short-circuits at the first differing byte (and a
length mismatch is detected without inspecting any byte).  We instrument
the comparison with a count of byte comparisons performed. -/

/-- Byte-slice equality instrumented with its cost: the number of byte
comparisons performed.  Equality of `&[u8]` first compares lengths, then
compares bytes left to right, stopping at the first mismatch. -/
def bytesEqCost : List Nat → List Nat → Nat × Bool
  | [], [] => (0, true)
  | [], _ :: _ => (0, false)
  | _ :: _, [] => (0, false)
  | a :: as, b :: bs =>
      if a = b then
        let r := bytesEqCost as bs
        (r.1 + 1, r.2)
      else
        (1, false)

/-- The full `Option<&[u8]>` comparison of the secret check, instrumented:
`none`/`some` shape mismatch costs no byte comparison; two `some`s compare
their byte slices. -/
def secretEqCost : Option (List Nat) → Option (List Nat) → Nat × Bool
  | none, none => (0, true)
  | none, some _ => (0, false)
  | some _, none => (0, false)
  | some a, some b => bytesEqCost a b

/-- A concrete external parser that always succeeds with update `0`
(used to instantiate theorems at concrete inputs). -/
def parseOkZero : String → Except String Nat := fun _ => Except.ok 0

/-- A concrete external parser that always fails with message `"bad"`
(used to instantiate theorems at concrete inputs). -/
def parseErrBad : String → Except String Nat := fun _ => Except.error "bad"

/-- A concrete external parser mapping `"bad"` to a parse failure and any
other body to the update `s.length` (used to instantiate theorems). -/
def parseLen : String → Except String Nat :=
  fun s => if s = "bad" then Except.error "no" else Except.ok s.length

/-- A concrete sample request sequence (used to instantiate theorems). -/
def reqsSample : List Request :=
  [⟨"a", none⟩, ⟨"xx", some [1]⟩, ⟨"bad", none⟩, ⟨"cc", none⟩]

/-! ### Theorems -/

/-- C1: for every inbound request, `telegram_request` runs its stages in the
fixed order secret check → availability check → parse (its trace is a prefix
of that sequence), terminates without panicking with exactly one of the
status codes 200, 401, 503, and writes to the queue only on the
200-after-successful-parse path (where it appends exactly the parsed
update).  Stated under the precondition that the channel's receiver half is
alive (the case where it is not is the subject of C10). -/
theorem telegram_request_order_status_queue {U : Type}
    (parse : String → Except String U) (input : String)
    (sh s : Option (List Nat)) (cell stopped : Bool) (chan : ChanState U)
    (halive : chan.receiverAlive = true) :
    (telegram_request parse input sh s cell stopped chan).panicked = false ∧
    ((telegram_request parse input sh s cell stopped chan).status = 200 ∨
      (telegram_request parse input sh s cell stopped chan).status = 401 ∨
      (telegram_request parse input sh s cell stopped chan).status = 503) ∧
    List.IsPrefix (telegram_request parse input sh s cell stopped chan).trace
      [Step.secretCheck, Step.availCheck, Step.parseStep] ∧
    ((telegram_request parse input sh s cell stopped chan).queue = chan.queue ∨
      ((telegram_request parse input sh s cell stopped chan).status = 200 ∧
        ∃ u, parse input = Except.ok u ∧
          (telegram_request parse input sh s cell stopped chan).queue =
            chan.queue ++ [u])) := by
  unfold telegram_request
  split
  · exact ⟨rfl, Or.inr (Or.inl rfl),
      ⟨[Step.availCheck, Step.parseStep], rfl⟩, Or.inl rfl⟩
  split
  · exact ⟨rfl, Or.inr (Or.inr rfl), ⟨[Step.parseStep], rfl⟩, Or.inl rfl⟩
  split
  · exact ⟨rfl, Or.inr (Or.inr rfl), ⟨[Step.parseStep], rfl⟩, Or.inl rfl⟩
  split
  · next u heq =>
      exact ⟨rfl, Or.inl rfl, ⟨[], rfl⟩, Or.inr ⟨rfl, u, heq, rfl⟩⟩
  · exact ⟨rfl, Or.inl rfl, ⟨[], rfl⟩, Or.inl rfl⟩

/-- Witness for C1 at a concrete input: no secret configured, no header,
open sender, not stopped, live receiver, parser succeeding with update 0. -/
theorem telegram_request_order_status_queue_witness :
    (⟨[], true⟩ : ChanState Nat).receiverAlive = true ∧
    ((telegram_request parseOkZero "x" none none true false
        ⟨[], true⟩).panicked = false ∧
      ((telegram_request parseOkZero "x" none none true false
          ⟨[], true⟩).status = 200 ∨
        (telegram_request parseOkZero "x" none none true false
          ⟨[], true⟩).status = 401 ∨
        (telegram_request parseOkZero "x" none none true false
          ⟨[], true⟩).status = 503) ∧
      List.IsPrefix (telegram_request parseOkZero "x" none
          none true false ⟨[], true⟩).trace
        [Step.secretCheck, Step.availCheck, Step.parseStep] ∧
      ((telegram_request parseOkZero "x" none none true false
          ⟨[], true⟩).queue = (⟨[], true⟩ : ChanState Nat).queue ∨
        ((telegram_request parseOkZero "x" none none true
            false ⟨[], true⟩).status = 200 ∧
          ∃ u, parseOkZero "x" = Except.ok u ∧
            (telegram_request parseOkZero "x" none none true
              false ⟨[], true⟩).queue =
              (⟨[], true⟩ : ChanState Nat).queue ++ [u]))) :=
  ⟨rfl, telegram_request_order_status_queue
    parseOkZero "x" none none true false ⟨[], true⟩ rfl⟩

/-- C2: while the listener is not stopped (`stopped = false`), the sender is
open (`cell = true`) and the consumer half is alive, processing any sequence
of requests leaves in the queue exactly the updates of the
successfully-parsed requests (those passing the secret check whose bodies
parse), appended in their processing order after the prior queue contents —
no reordering, duplication or loss.  The consumer stream
(`UnboundedReceiverStream`) yields the queue front-to-back, so this is
exactly what the consumer observes. -/
theorem runRequests_fifo {U : Type} (parse : String → Except String U)
    (secret : Option (List Nat)) (chan : ChanState U) (reqs : List Request)
    (halive : chan.receiverAlive = true) :
    (runRequests parse secret false true chan reqs).2.queue =
      chan.queue ++ reqs.filterMap (fun r =>
        if r.header = secret then (parse r.input).toOption else none) := by
  induction reqs generalizing chan with
  | nil => simp [runRequests]
  | cons r rs ih =>
      by_cases hh : r.header = secret
      · subst hh
        cases hp : parse r.input with
        | ok u =>
            have ht : telegram_request parse r.input r.header r.header true
                false chan = ⟨false, 200, true, chan.queue ++ [u], [],
                  [.secretCheck, .availCheck, .parseStep]⟩ := by
              simp [telegram_request, hp, halive]
            simp [runRequests, ht, ih ⟨chan.queue ++ [u], chan.receiverAlive⟩
              halive, hp, Except.toOption]
        | error e =>
            have ht : telegram_request parse r.input r.header r.header true
                false chan = ⟨false, 200, true, chan.queue, [(e, r.input)],
                  [.secretCheck, .availCheck, .parseStep]⟩ := by
              simp [telegram_request, hp]
            simp [runRequests, ht, ih ⟨chan.queue, chan.receiverAlive⟩
              halive, hp, Except.toOption]
      · have ht : telegram_request parse r.input r.header secret true false
            chan = ⟨false, 401, true, chan.queue, [], [.secretCheck]⟩ := by
          simp [telegram_request, hh]
        simp [runRequests, ht, ih ⟨chan.queue, chan.receiverAlive⟩ halive, hh]

/-- Witness for C2 at a concrete input: no secret, three requests — one
parsing as update 1, one rejected by the secret check, one parsing as
update 2 — leave exactly `[1, 2]` in the queue. -/
theorem runRequests_fifo_witness :
    (⟨[], true⟩ : ChanState Nat).receiverAlive = true ∧
    (runRequests parseLen none false true ⟨[], true⟩ reqsSample).2.queue =
      (⟨[], true⟩ : ChanState Nat).queue ++ reqsSample.filterMap (fun r =>
        if r.header = none then (parseLen r.input).toOption else none) :=
  ⟨rfl, runRequests_fifo parseLen none ⟨[], true⟩ reqsSample rfl⟩

/-- C3: if the stop flag reports stopped when a request with a correct (or
absent-and-unconfigured) secret arrives while the `ClosableSender` is still
open (`cell = true`), the handler returns 503, writes nothing to the queue,
does not panic, and the `ClosableSender` cell is emptied — after which, by
the semantics of `ClosableSender.close`/`get`, `get()` on any clone of the
sender (any `ClosableSender` sharing the same cell) returns `none`. -/
theorem stopped_request_503_closes_sender {U : Type}
    (parse : String → Except String U) (input : String)
    (sh s : Option (List Nat)) (chan : ChanState U) (hsec : sh = s) :
    ((telegram_request parse input sh s true true chan).status = 503 ∧
      (telegram_request parse input sh s true true chan).queue = chan.queue ∧
      (telegram_request parse input sh s true true chan).panicked = false ∧
      (telegram_request parse input sh s true true chan).cell = false) ∧
    (∀ (h : Heap U) (cs other : ClosableSender U), other.origin = cs.origin →
      ClosableSender.get (ClosableSender.close h cs) other = none) := by
  constructor
  · subst hsec
    simp [telegram_request]
  · intro h cs other hor
    simp [ClosableSender.get, ClosableSender.close, hor]

/-- Witness for C3 at a concrete input: no secret configured, no header,
stopped flag set, open sender. -/
theorem stopped_request_503_closes_sender_witness :
    (none : Option (List Nat)) = none ∧
    (((telegram_request parseOkZero "x" none none true true
          ⟨[], true⟩).status = 503 ∧
        (telegram_request parseOkZero "x" none none true true
          ⟨[], true⟩).queue = (⟨[], true⟩ : ChanState Nat).queue ∧
        (telegram_request parseOkZero "x" none none true true
          ⟨[], true⟩).panicked = false ∧
        (telegram_request parseOkZero "x" none none true true
          ⟨[], true⟩).cell = false) ∧
      (∀ (h : Heap Nat) (cs other : ClosableSender Nat),
        other.origin = cs.origin →
          ClosableSender.get (ClosableSender.close h cs) other = none)) :=
  ⟨rfl, stopped_request_503_closes_sender parseOkZero "x" none none
    ⟨[], true⟩ rfl⟩

/-- C4: a request passing the secret check (header equals configured secret)
and the availability check (sender open, not stopped) whose body fails to
parse yields 200, enqueues nothing, does not panic, and emits exactly one
log entry, consisting of the parse error and the raw body. -/
theorem parse_failure_200_logs_once {U : Type}
    (parse : String → Except String U) (input : String)
    (sh s : Option (List Nat)) (chan : ChanState U) (e : String)
    (hsec : sh = s) (hp : parse input = Except.error e) :
    (telegram_request parse input sh s true false chan).status = 200 ∧
    (telegram_request parse input sh s true false chan).queue = chan.queue ∧
    (telegram_request parse input sh s true false chan).panicked = false ∧
    (telegram_request parse input sh s true false chan).logs = [(e, input)] := by
  subst hsec
  simp [telegram_request, hp]

/-- Witness for C4 at a concrete input: no secret configured, no header,
parser failing with message `"bad"`. -/
theorem parse_failure_200_logs_once_witness :
    (none : Option (List Nat)) = none ∧
    parseErrBad "x" = Except.error "bad" ∧
    ((telegram_request parseErrBad "x" none none true false
        ⟨[], true⟩).status = 200 ∧
      (telegram_request parseErrBad "x" none none true false
        ⟨[], true⟩).queue = (⟨[], true⟩ : ChanState Nat).queue ∧
      (telegram_request parseErrBad "x" none none true false
        ⟨[], true⟩).panicked = false ∧
      (telegram_request parseErrBad "x" none none true false
        ⟨[], true⟩).logs = [("bad", "x")]) :=
  ⟨rfl, rfl, parse_failure_200_logs_once parseErrBad "x" none none
    ⟨[], true⟩ "bad" rfl rfl⟩

/-- C5 counterexample: a present but malformed secret-token header (here the
empty header value, which fails the length bound of the well-formedness
check) is rejected by the `XTelegramBotApiSecretToken` extractor with
`StatusCode::BAD_REQUEST` (400), not 401 as the claim states. -/
theorem malformed_secret_400_counterexample :
    XTelegramBotApiSecretToken.from_request check_secret (some []) =
      Except.error 400 ∧ (400 : Nat) ≠ 401 := by
  constructor
  · rfl
  · decide

/-- C5 amended: every request whose secret-token header is present but
malformed (fails the well-formedness check) is rejected with status 400
Bad Request — a different status from the 401 of a secret mismatch — by the
extractor itself, so the handler body never runs: nothing is enqueued,
closed, or logged. -/
theorem malformed_secret_rejected_400 {U : Type}
    (parse : String → Except String U) (input : String)
    (bytes : List Nat) (secret : Option (List Nat)) (cell stopped : Bool)
    (chan : ChanState U)
    (hm : (check_secret bytes).isOk = false) :
    (handle_request parse check_secret input (some bytes) secret cell stopped
        chan).status = 400 ∧
    (handle_request parse check_secret input (some bytes) secret cell stopped
        chan).queue = chan.queue ∧
    (handle_request parse check_secret input (some bytes) secret cell stopped
        chan).cell = cell ∧
    (handle_request parse check_secret input (some bytes) secret cell stopped
        chan).logs = [] ∧
    (handle_request parse check_secret input (some bytes) secret cell stopped
        chan).panicked = false ∧
    (400 : Nat) ≠ 401 := by
  cases hcs : check_secret bytes with
  | ok b => rw [hcs] at hm; simp [Except.isOk, Except.toBool] at hm
  | error e =>
      refine ⟨?_, ?_, ?_, ?_, ?_, by decide⟩ <;>
        simp [handle_request, XTelegramBotApiSecretToken.from_request, hcs]

/-- Witness for C5's amended theorem at a concrete input: the empty header
value is malformed and yields 400 with no state change. -/
theorem malformed_secret_rejected_400_witness :
    (check_secret []).isOk = false ∧
    ((handle_request parseOkZero check_secret "x" (some []) none true false
        ⟨[], true⟩).status = 400 ∧
      (handle_request parseOkZero check_secret "x" (some []) none true false
        ⟨[], true⟩).queue = (⟨[], true⟩ : ChanState Nat).queue ∧
      (handle_request parseOkZero check_secret "x" (some []) none true false
        ⟨[], true⟩).cell = true ∧
      (handle_request parseOkZero check_secret "x" (some []) none true false
        ⟨[], true⟩).logs = [] ∧
      (handle_request parseOkZero check_secret "x" (some []) none true false
        ⟨[], true⟩).panicked = false ∧
      (400 : Nat) ≠ 401) :=
  ⟨rfl, malformed_secret_rejected_400 parseOkZero "x" [] none true false
    ⟨[], true⟩ rfl⟩

/-- C6: after `close()` through any `ClosableSender`, `get()` returns `none`
for every `ClosableSender` sharing the same cell — in particular for
`clone`s, which share the cell by construction, whether made before or after
the close — and a further `close()` is a total (always-succeeding) silent
no-op: closing an already-closed cell leaves the heap unchanged. -/
theorem closable_sender_close_one_way {T : Type} (h : Heap T)
    (cs other : ClosableSender T) (hshare : other.origin = cs.origin) :
    ClosableSender.get (ClosableSender.close h cs) other = none ∧
    ClosableSender.get (ClosableSender.close h cs)
      (ClosableSender.clone cs) = none ∧
    ClosableSender.close (ClosableSender.close h cs) other =
      ClosableSender.close h cs := by
  refine ⟨?_, ?_, ?_⟩
  · simp [ClosableSender.get, ClosableSender.close, hshare]
  · simp [ClosableSender.get, ClosableSender.close, ClosableSender.clone]
  · funext n
    by_cases hn : n = cs.origin <;>
      simp [ClosableSender.close, hshare, hn]

/-- Witness for C6 at a concrete input: a cell holding the value 5, closed
through one handle, read and re-closed through a sharing handle. -/
theorem closable_sender_close_one_way_witness :
    (⟨0⟩ : ClosableSender Nat).origin = (⟨0⟩ : ClosableSender Nat).origin ∧
    (ClosableSender.get (ClosableSender.close (fun _ => some 5) ⟨0⟩)
        (⟨0⟩ : ClosableSender Nat) = none ∧
      ClosableSender.get (ClosableSender.close (fun _ => some 5) ⟨0⟩)
        (ClosableSender.clone (⟨0⟩ : ClosableSender Nat)) = none ∧
      ClosableSender.close
          (ClosableSender.close (fun _ => some (5 : Nat)) ⟨0⟩) ⟨0⟩ =
        ClosableSender.close (fun _ => some 5) ⟨0⟩) :=
  ⟨rfl, closable_sender_close_one_way (fun _ => some 5) ⟨0⟩ ⟨0⟩ rfl⟩

/-- C7: if `setup_webhook` fails with error `e`, both `axum_to_router` and
`axum` return exactly `Except.error e` — the remote API's own error type,
unchanged — and the event trace contains only the registration attempt
itself: no listener/router/stop-future is built (`buildListener` absent),
no server task is spawned, no `delete_webhook` is issued. -/
theorem setup_webhook_failure_atomic {E : Type} (e : E) :
    axum_to_router (Except.error e) =
      (Except.error e, [Event.setupWebhook]) ∧
    axum (Except.error e) = (Except.error e, [Event.setupWebhook]) :=
  ⟨rfl, rfl⟩

/-- C8: once the stop flag has resolved, the composed stop-future runs
`delete_webhook` exactly once (the trace is exactly one `deleteWebhook`
event), resolves to `()` whatever the outcome, and a failure is only
logged: an error `err` produces exactly the one log line and is not
propagated (the future's value is `()` in that case too). -/
theorem delete_webhook_once_best_effort (d : Except String Unit) :
    (stopFlagThenDeleteWebhook d).1 = () ∧
    (stopFlagThenDeleteWebhook d).2.1 = [Event.deleteWebhook] ∧
    (stopFlagThenDeleteWebhook d).2.2 =
      (match d with
        | Except.ok _ => []
        | Except.error err => ["Couldnt delete webhook: " ++ err]) := by
  cases d with
  | ok u => cases u; exact ⟨rfl, rfl, rfl⟩
  | error err => exact ⟨rfl, rfl, rfl⟩

/-- The instrumented byte comparison computes exactly slice equality. -/
theorem bytesEqCost_correct (a b : List Nat) :
    ((bytesEqCost a b).2 = true) ↔ a = b := by
  induction a generalizing b with
  | nil => cases b <;> simp [bytesEqCost]
  | cons x xs ih =>
      cases b with
      | nil => simp [bytesEqCost]
      | cons y ys =>
          by_cases hxy : x = y
          · simp [bytesEqCost, hxy, ih]
          · simp [bytesEqCost, hxy]

/-- C9 is false of the code (`// FIXME: use constant time comparison here`):
the secret comparison of `telegram_request` is the short-circuiting
`Option<&[u8]>` inequality.  `secretEqCost` instruments exactly that
comparison (its boolean component coincides with the equality the handler
tests); on the configured secret `[1,2,3]` it performs 1 byte comparison
against a header differing at position 0 but 3 byte comparisons against a
header differing at position 2 — the execution time depends on the position
of the first differing byte, so the comparison is not constant-time. -/
theorem secret_compare_not_constant_time :
    (∀ (x y : Option (List Nat)), ((secretEqCost x y).2 = true) ↔ x = y) ∧
    (secretEqCost (some [1, 2, 3]) (some [0, 2, 3])).2 = false ∧
    (secretEqCost (some [1, 2, 3]) (some [1, 2, 0])).2 = false ∧
    (secretEqCost (some [1, 2, 3]) (some [0, 2, 3])).1 = 1 ∧
    (secretEqCost (some [1, 2, 3]) (some [1, 2, 0])).1 = 3 ∧
    (secretEqCost (some [1, 2, 3]) (some [0, 2, 3])).1 ≠
      (secretEqCost (some [1, 2, 3]) (some [1, 2, 0])).1 := by
  refine ⟨?_, by decide, by decide, by decide, by decide, by decide⟩
  intro x y
  cases x <;> cases y <;> simp [secretEqCost, bytesEqCost_correct]

/-- C10: the `.expect` on `tx.send` in `telegram_request` is unreachable
whenever the queue's consumer half is alive (first conjunct: under that
precondition no input panics); without the precondition it is reachable —
the second conjunct exhibits a request that passes the secret and
availability checks and parses successfully while the receiver is dropped,
and panics instead of returning an error status. -/
theorem send_expect_panic_iff_receiver_dead {U : Type}
    (parse : String → Except String U) (input : String)
    (sh s : Option (List Nat)) (cell stopped : Bool) (chan : ChanState U)
    (halive : chan.receiverAlive = true) :
    (telegram_request parse input sh s cell stopped chan).panicked = false ∧
    (telegram_request parseOkZero "x" none none true false
      ⟨[], false⟩).panicked = true := by
  constructor
  · unfold telegram_request
    split
    · rfl
    split
    · rfl
    split
    · rfl
    split
    · rfl
    · rfl
  · rfl

/-- Witness for C10 at a concrete input: with a live receiver the same
handler run does not panic. -/
theorem send_expect_panic_iff_receiver_dead_witness :
    (⟨[], true⟩ : ChanState Nat).receiverAlive = true ∧
    ((telegram_request parseOkZero "y" none none true false
        ⟨[], true⟩).panicked = false ∧
      (telegram_request parseOkZero "x" none none true false
        ⟨[], false⟩).panicked = true) :=
  ⟨rfl, send_expect_panic_iff_receiver_dead parseOkZero "y" none none true
    false ⟨[], true⟩ rfl⟩
